import Mathlib

/-!
Shallow embedding of the zone-migration script (migrate_zone.py).

The script migrates DNS zones from Dyn Managed DNS to OCI DNS.  Its core
functions are embedded here as pure Lean functions over an explicit
environment `Env` that supplies the responses of every external call
(destination HTTP responses, source-provider lookups, lifecycle polls),
together with an explicit trace of the external calls the code issues.

Python exceptions are embedded as `Except` error values; the fields of each
error constructor record exactly the data the corresponding exception
message interpolates (the numeric HTTP status code is interpolated by none
of them).  The prints announcing a skipped or created zone are embedded as
the `MigResult` value.  `requests.codes.ok` is 200 and
`requests.codes.created` is 201.
-/

/-- Response to one lifecycle-state fetch (`GET .../{ocid}`): the HTTP
status, the parsed `lifecycleState` field of the JSON body, the
`opc-request-id` response header when present, and the body text. -/
structure PollResp where
  status : Nat
  lifecycleState : String
  opcRequestId : Option String
  body : String
deriving DecidableEq

/-- Errors raised by the polling loops `poll_zone_create` /
`poll_tsig_key_create`.  Fields record what the exception messages
interpolate: the `opc-request-id` header and the response body; the
numeric HTTP status is not part of any message. -/
inductive PollError where
  | getFailed (opcRequestId : Option String) (body : String)
  | unexpectedState (opcRequestId : Option String) (body : String)
  | timedOut
deriving DecidableEq

/-- `MAX_POLL_ATTEMPTS = 100` from the script. -/
def MAX_POLL_ATTEMPTS : Nat := 100

/-- `time.sleep(5)` interval between polls, in seconds. -/
def POLL_INTERVAL_SECONDS : Nat := 5

/-- The body of the `while poll_attempts < MAX_POLL_ATTEMPTS` loop shared
verbatim by `poll_tsig_key_create` and `poll_zone_create`.  `fetch n` is the
response to the n-th (0-based) lifecycle-state fetch; `fuel` is the number
of attempts remaining and `fetched` the number of fetches already made.  On
success it returns the total number of fetches performed. -/
def pollLifecycleAux (fetch : Nat → PollResp) : Nat → Nat → Except PollError Nat
  | 0, _ => .error .timedOut
  | fuel + 1, fetched =>
    let r := fetch fetched
    if r.status ≠ 200 then .error (.getFailed r.opcRequestId r.body)
    else if r.lifecycleState = "CREATING" then pollLifecycleAux fetch fuel (fetched + 1)
    else if r.lifecycleState = "ACTIVE" then .ok (fetched + 1)
    else .error (.unexpectedState r.opcRequestId r.body)

/-- `poll_tsig_key_create` from the script, abstracted over the sequence of
lifecycle-state responses. -/
def poll_tsig_key_create (fetch : Nat → PollResp) : Except PollError Nat :=
  pollLifecycleAux fetch MAX_POLL_ATTEMPTS 0

/-- `poll_zone_create` from the script (its loop body is identical to the
tsig-key one), abstracted over the sequence of lifecycle-state responses. -/
def poll_zone_create (fetch : Nat → PollResp) : Except PollError Nat :=
  pollLifecycleAux fetch MAX_POLL_ATTEMPTS 0

/-- A fetch response that is HTTP 200 with lifecycle state CREATING. -/
def isCreatingResp (r : PollResp) : Prop :=
  r.status = 200 ∧ r.lifecycleState = "CREATING"

/-- A fetch response that is HTTP 200 with lifecycle state ACTIVE. -/
def isActiveResp (r : PollResp) : Prop :=
  r.status = 200 ∧ r.lifecycleState = "ACTIVE"

instance (r : PollResp) : Decidable (isCreatingResp r) := by
  unfold isCreatingResp; infer_instance

instance (r : PollResp) : Decidable (isActiveResp r) := by
  unfold isActiveResp; infer_instance

lemma pollLifecycleAux_creating_prefix (fetch : Nat → PollResp) :
    ∀ (k fuel fetched : Nat), (∀ i, i < k → isCreatingResp (fetch (fetched + i))) →
      k ≤ fuel →
      pollLifecycleAux fetch fuel fetched = pollLifecycleAux fetch (fuel - k) (fetched + k) := by
  intro k
  induction k with
  | zero => intro fuel fetched _ _; simp
  | succ k ih =>
    intro fuel fetched hcr hle
    obtain ⟨f, rfl⟩ : ∃ f, fuel = f + 1 := ⟨fuel - 1, by omega⟩
    have h0 : isCreatingResp (fetch fetched) := by
      have := hcr 0 (by omega); simpa using this
    obtain ⟨hs, hc⟩ := h0
    have hstep : pollLifecycleAux fetch (f + 1) fetched
        = pollLifecycleAux fetch f (fetched + 1) := by
      conv_lhs => unfold pollLifecycleAux
      simp [hs, hc]
    rw [hstep]
    have hrest : ∀ i, i < k → isCreatingResp (fetch (fetched + 1 + i)) := by
      intro i hi
      have := hcr (i + 1) (by omega)
      have harith : fetched + (i + 1) = fetched + 1 + i := by omega
      rwa [harith] at this
    rw [ih f (fetched + 1) hrest (by omega)]
    have h1 : f - k = f + 1 - (k + 1) := by omega
    have h2 : fetched + 1 + k = fetched + (k + 1) := by omega
    rw [h1, h2]

/-- Claim C3: with `MAX_POLL_ATTEMPTS = 100`, for a sequence of observed
lifecycle states consisting of k CREATING responses: if the k-th fetch (0-based)
is ACTIVE and k < 100, both polling loops return successfully after exactly
k+1 fetches; if all 100 fetches report CREATING (k = 100), both fail with the
timeout error; if the k-th fetch (k < 100) is an HTTP-200 response whose state
is neither CREATING nor ACTIVE, both fail with the unexpected-state error at
that first non-CREATING observation. -/
theorem poll_loop_spec (fetch : Nat → PollResp) (k : Nat)
    (hcr : ∀ i, i < k → isCreatingResp (fetch i)) :
    MAX_POLL_ATTEMPTS = 100
    ∧ (k < 100 → isActiveResp (fetch k) →
        poll_zone_create fetch = .ok (k + 1) ∧ poll_tsig_key_create fetch = .ok (k + 1))
    ∧ (k = 100 →
        poll_zone_create fetch = .error .timedOut
        ∧ poll_tsig_key_create fetch = .error .timedOut)
    ∧ (k < 100 → (fetch k).status = 200 → (fetch k).lifecycleState ≠ "CREATING" →
        (fetch k).lifecycleState ≠ "ACTIVE" →
        poll_zone_create fetch = .error (.unexpectedState (fetch k).opcRequestId (fetch k).body)
        ∧ poll_tsig_key_create fetch
            = .error (.unexpectedState (fetch k).opcRequestId (fetch k).body)) := by
  have hcr0 : ∀ i, i < k → isCreatingResp (fetch (0 + i)) := by simpa using hcr
  refine ⟨rfl, ?_, ?_, ?_⟩
  · intro hk ha
    have hskip := pollLifecycleAux_creating_prefix fetch k MAX_POLL_ATTEMPTS 0 hcr0
      (by simp [MAX_POLL_ATTEMPTS]; omega)
    obtain ⟨m, hm⟩ : ∃ m, MAX_POLL_ATTEMPTS - k = m + 1 := ⟨MAX_POLL_ATTEMPTS - k - 1,
      by simp [MAX_POLL_ATTEMPTS]; omega⟩
    obtain ⟨hs, hstate⟩ := ha
    have : pollLifecycleAux fetch (MAX_POLL_ATTEMPTS - k) (0 + k) = .ok (k + 1) := by
      rw [hm]
      unfold pollLifecycleAux
      simp [hs, hstate]
    constructor <;>
      simp only [poll_zone_create, poll_tsig_key_create, hskip, this]
  · intro hk
    subst hk
    have hskip := pollLifecycleAux_creating_prefix fetch 100 MAX_POLL_ATTEMPTS 0 hcr0
      (by simp [MAX_POLL_ATTEMPTS])
    have : pollLifecycleAux fetch (MAX_POLL_ATTEMPTS - 100) (0 + 100) = .error .timedOut := by
      simp [MAX_POLL_ATTEMPTS, pollLifecycleAux]
    constructor <;>
      simp only [poll_zone_create, poll_tsig_key_create, hskip, this]
  · intro hk hs hnc hna
    have hskip := pollLifecycleAux_creating_prefix fetch k MAX_POLL_ATTEMPTS 0 hcr0
      (by simp [MAX_POLL_ATTEMPTS]; omega)
    obtain ⟨m, hm⟩ : ∃ m, MAX_POLL_ATTEMPTS - k = m + 1 := ⟨MAX_POLL_ATTEMPTS - k - 1,
      by simp [MAX_POLL_ATTEMPTS]; omega⟩
    have : pollLifecycleAux fetch (MAX_POLL_ATTEMPTS - k) (0 + k)
        = .error (.unexpectedState (fetch k).opcRequestId (fetch k).body) := by
      rw [hm]
      unfold pollLifecycleAux
      simp [hs, hnc, hna]
    constructor <;>
      simp only [poll_zone_create, poll_tsig_key_create, hskip, this]

/-- A fetch sequence used to exercise `poll_loop_spec`: two CREATING
responses followed by ACTIVE. -/
def exFetchCA (n : Nat) : PollResp :=
  if n < 2 then ⟨200, "CREATING", none, "creating-body"⟩
  else ⟨200, "ACTIVE", none, "active-body"⟩

/-- Witness for C3 at a concrete input: two CREATING responses then ACTIVE
yields success after exactly three fetches. -/
theorem poll_loop_spec_witness : poll_zone_create exFetchCA = .ok 3 :=
  ((poll_loop_spec exFetchCA 2 (by decide)).2.1 (by omega) (by decide)).1

/-- One entry of the parsed JSON list returned by `GET /zones`. -/
structure ZoneSummary where
  id : String
deriving DecidableEq

/-- One entry of the parsed JSON list returned by `GET /tsigKeys`. -/
structure TsigKeySummary where
  id : String
  lifecycleState : String
deriving DecidableEq

/-- Response to the existing-zone lookup `GET /zones?compartmentId=..&name=..`. -/
structure ZoneListResp where
  status : Nat
  zones : List ZoneSummary
  opcRequestId : Option String
deriving DecidableEq

/-- Response to the tsig-key lookup `GET /tsigKeys?compartmentId=..&name=..`. -/
structure TsigListResp where
  status : Nat
  keys : List TsigKeySummary
  opcRequestId : Option String
deriving DecidableEq

/-- Response to a creation `POST` (zone or tsig key): HTTP status, the `id`
field of the body, the `opc-request-id` header, and the body text. -/
structure CreateResp where
  status : Nat
  id : String
  opcRequestId : Option String
  body : String
deriving DecidableEq

/-- The Dynect `Zone` object: only its `_zone_type` attribute is consulted. -/
structure DynZone where
  zone_type : String
deriving DecidableEq

/-- The Dynect `SecondaryZone` object: its `tsig_key_name` and `_masters`
attributes. -/
structure DynSecondaryZone where
  tsig_key_name : String
  masters : List String
deriving DecidableEq

/-- The Dynect `TSIG` object: its `algorithm` and `secret` attributes. -/
structure DynTsigKey where
  algorithm : String
  secret : String
deriving DecidableEq

/-- The JSON body sent by `POST /tsigKeys`. -/
structure TsigKeyData where
  name : String
  algorithm : String
  secret : String
  compartmentId : String
deriving DecidableEq

/-- One element of the `externalMasters` list of a secondary-zone creation
payload. -/
structure ExternalMaster where
  address : String
  tsigKeyId : Option String
deriving DecidableEq

/-- The JSON body sent by `POST /zones` for a secondary zone. -/
structure SecondaryZoneData where
  name : String
  compartmentId : String
  zoneType : String
  externalMasters : List ExternalMaster
deriving DecidableEq

/-- Environment supplying the outcome of every external interaction during
one zone migration: destination HTTP responses, Dynect lookups (an `Except`
models the Python call either returning an object or raising), the zone
transfer, and the two lifecycle-poll response sequences.  `compartment` and
`tsig_key_compartment` are the module-level compartment ids. -/
structure Env where
  compartment : String
  tsig_key_compartment : String
  listZonesResp : ZoneListResp
  dynZone : Except Unit DynZone
  dynSecondaryZone : Except Unit DynSecondaryZone
  listTsigKeysResp : TsigListResp
  dynTsig : Except Unit DynTsigKey
  createTsigKeyResp : CreateResp
  tsigPoll : Nat → PollResp
  transfer : Except Unit String
  createZoneResp : CreateResp
  zonePoll : Nat → PollResp

/-- External calls issued by the embedded code, in order. -/
inductive Event where
  | listZonesCall (name : String)
  | dynZoneCall (name : String)
  | dynSecondaryZoneCall (name : String)
  | listTsigKeysCall (name : String)
  | dynTsigCall (name : String)
  | createTsigKeyCall (data : TsigKeyData)
  | tsigPollCall (ocid : String)
  | transferCall (name : String)
  | createZoneStructuredCall (payload : SecondaryZoneData)
  | createZoneFromFileCall (zonefile : String)
  | zonePollCall (ocid : String)
deriving DecidableEq

/-- Errors raised by `get_or_create_tsig_key`.  Fields record what each
exception message interpolates (none interpolates the HTTP status code; the
lookup-failure message carries only the request id, not the body). -/
inductive TsigError where
  | lookupFailed (opcRequestId : Option String)
  | invalidState (name state : String)
  | dynLookupFailed (name : String)
  | createFailed (name : String) (opcRequestId : Option String) (body : String)
  | awaitFailed (name : String) (cause : PollError)
deriving DecidableEq

/-- Errors raised out of `create_zone`.  Fields record what each exception
message interpolates.  `zonePollFailed` carries the zone OCID because the
poll-loop messages mention the OCID, not the zone name. -/
inductive MigError where
  | dynZoneLookupFailed (name : String)
  | dynSecondaryLookupFailed (name : String)
  | tsigKeyFailed (name : String) (cause : TsigError)
  | transferFailed (name : String)
  | createZoneFailed (name : String) (opcRequestId : Option String) (body : String)
  | zonePollFailed (ocid : String) (cause : PollError)
deriving DecidableEq

/-- Observable outcome of one zone migration: the script prints a skipping
message and returns early when the zone already exists, or prints completion
after creating the zone and polling it to ACTIVE. -/
inductive MigResult where
  | skippedExisting (id : String)
  | created (id : String)
deriving DecidableEq

/-- `get_or_create_tsig_key(tsig_key_name)` from the script, with the trace
of external calls it issues.  Lookup with HTTP 200 and a match: return the
first key id if ACTIVE, else raise; lookup with HTTP 200 and no match: fetch
the key from Dynect, create it, poll it to ACTIVE; lookup non-200: raise. -/
def get_or_create_tsig_key (env : Env) (tsig_key_name : String) :
    Except TsigError String × List Event :=
  let r := env.listTsigKeysResp
  if r.status = 200 then
    match r.keys with
    | key :: _ =>
      if key.lifecycleState ≠ "ACTIVE" then
        (.error (.invalidState tsig_key_name key.lifecycleState),
         [.listTsigKeysCall tsig_key_name])
      else
        (.ok key.id, [.listTsigKeysCall tsig_key_name])
    | [] =>
      match env.dynTsig with
      | .error _ =>
        (.error (.dynLookupFailed tsig_key_name),
         [.listTsigKeysCall tsig_key_name, .dynTsigCall tsig_key_name])
      | .ok dk =>
        let data : TsigKeyData :=
          ⟨tsig_key_name, dk.algorithm, dk.secret, env.tsig_key_compartment⟩
        let cr := env.createTsigKeyResp
        if cr.status ≠ 201 then
          (.error (.createFailed tsig_key_name cr.opcRequestId cr.body),
           [.listTsigKeysCall tsig_key_name, .dynTsigCall tsig_key_name,
            .createTsigKeyCall data])
        else
          match poll_tsig_key_create env.tsigPoll with
          | .error e =>
            (.error (.awaitFailed tsig_key_name e),
             [.listTsigKeysCall tsig_key_name, .dynTsigCall tsig_key_name,
              .createTsigKeyCall data, .tsigPollCall cr.id])
          | .ok _ =>
            (.ok cr.id,
             [.listTsigKeysCall tsig_key_name, .dynTsigCall tsig_key_name,
              .createTsigKeyCall data, .tsigPollCall cr.id])
  else
    (.error (.lookupFailed r.opcRequestId), [.listTsigKeysCall tsig_key_name])

/-- Whether a string ends with the one-character suffix dot, as the
Python call `endswith(".")` tests: its last character is a dot (false for
the empty string). -/
def ends_with_dot (s : String) : Bool :=
  s.data.getLast? = some (Char.ofNat 46)

/-- `zone_name_with_dot` computed inside the primary-zone branch: append a
trailing dot unless the name already ends in one. -/
def zone_name_with_dot (zone_name : String) : String :=
  if ends_with_dot zone_name then zone_name else zone_name ++ "."

/-- The tail shared by both creation branches of `create_zone`: check the
creation response status (`requests.codes.created` = 201), then poll the new
zone to ACTIVE. -/
def finishCreate (env : Env) (zone_name : String) :
    Except MigError MigResult × List Event :=
  let r := env.createZoneResp
  if r.status ≠ 201 then
    (.error (.createZoneFailed zone_name r.opcRequestId r.body), [])
  else
    match poll_zone_create env.zonePoll with
    | .error e => (.error (.zonePollFailed r.id e), [.zonePollCall r.id])
    | .ok _ => (.ok (.created r.id), [.zonePollCall r.id])

/-- `create_zone` after the existing-zone lookup: look the zone up in
Dynect, branch on `_zone_type == "Secondary"`, build and send the creation
request, then run the shared tail. -/
def create_zone_after_lookup (env : Env) (zone_name : String) :
    Except MigError MigResult × List Event :=
  match env.dynZone with
  | .error _ => (.error (.dynZoneLookupFailed zone_name), [.dynZoneCall zone_name])
  | .ok dz =>
    if dz.zone_type = "Secondary" then
      match env.dynSecondaryZone with
      | .error _ =>
        (.error (.dynSecondaryLookupFailed zone_name),
         [.dynZoneCall zone_name, .dynSecondaryZoneCall zone_name])
      | .ok sz =>
        let tsigStep : Except MigError (Option String) × List Event :=
          if sz.tsig_key_name ≠ "" then
            match get_or_create_tsig_key env sz.tsig_key_name with
            | (.ok k, tr) => (.ok (some k), tr)
            | (.error e, tr) => (.error (.tsigKeyFailed zone_name e), tr)
          else (.ok none, [])
        match tsigStep with
        | (.error e, tr) =>
          (.error e, .dynZoneCall zone_name :: .dynSecondaryZoneCall zone_name :: tr)
        | (.ok keyId, tr) =>
          let payload : SecondaryZoneData :=
            ⟨zone_name, env.compartment, "SECONDARY",
             sz.masters.map fun a => ⟨a, keyId⟩⟩
          let tail := finishCreate env zone_name
          (tail.1,
           .dynZoneCall zone_name :: .dynSecondaryZoneCall zone_name ::
             (tr ++ .createZoneStructuredCall payload :: tail.2))
    else
      match env.transfer with
      | .error _ =>
        (.error (.transferFailed zone_name),
         [.dynZoneCall zone_name, .transferCall zone_name])
      | .ok body =>
        let zonefile := "$ORIGIN " ++ zone_name_with_dot zone_name ++ "\n" ++ body
        let tail := finishCreate env zone_name
        (tail.1,
         .dynZoneCall zone_name :: .transferCall zone_name ::
           .createZoneFromFileCall zonefile :: tail.2)

/-- `create_zone(zone_name)` from the script.  The existing-zone lookup
returns early (skip) only when it is HTTP 200 with a non-empty list; any
other response, including a non-2xx one, falls through to the migration
path. -/
def create_zone (env : Env) (zone_name : String) :
    Except MigError MigResult × List Event :=
  let cont := create_zone_after_lookup env zone_name
  let proceed : Except MigError MigResult × List Event :=
    (cont.1, .listZonesCall zone_name :: cont.2)
  if env.listZonesResp.status = 200 then
    match env.listZonesResp.zones with
    | w :: _ => (.ok (.skippedExisting w.id), [.listZonesCall zone_name])
    | [] => proceed
  else proceed

/-- `parser.set_defaults(ignore_failures=True)`: the default batch failure
policy. -/
def ignore_failures_default : Bool := true

/-- Result of a batch run: either the exception that escaped the loop (with
the zone it arose on), or the per-zone outcomes of every zone; plus the list
of zones on which `create_zone` was invoked and the concatenated trace of
external calls. -/
structure BatchOut where
  result : Except (String × MigError) (List (String × Except MigError MigResult))
  attempted : List String
  trace : List Event

/-- The `for zone_name in zone_names` loop of `migrate_zones`: call
`create_zone`; on an exception, re-raise it when `ignore_failures` is false,
otherwise report it and continue with the next zone.  `envs idx` is the
environment of the idx-th zone in the original list. -/
def runBatchAux (envs : Nat → Env) (ignore : Bool) : Nat → List String → BatchOut
  | _, [] => ⟨.ok [], [], []⟩
  | idx, z :: rest =>
    let step := create_zone (envs idx) z
    match step.1 with
    | .ok r =>
      let t := runBatchAux envs ignore (idx + 1) rest
      ⟨t.result.map fun rs => (z, .ok r) :: rs, z :: t.attempted, step.2 ++ t.trace⟩
    | .error e =>
      if ignore then
        let t := runBatchAux envs ignore (idx + 1) rest
        ⟨t.result.map fun rs => (z, .error e) :: rs, z :: t.attempted, step.2 ++ t.trace⟩
      else
        ⟨.error (z, e), [z], step.2⟩

/-- `migrate_zones` from the script, over an explicit list of zone names
(the script reads it from `--zone_name` or `--zone_names_file`). -/
def migrate_zones (envs : Nat → Env) (ignore : Bool) (zone_names : List String) : BatchOut :=
  runBatchAux envs ignore 0 zone_names

/-- The per-zone outcomes the loop produces when it never halts: each zone
paired with its `create_zone` result. -/
def batchOutcomes (envs : Nat → Env) : Nat → List String → List (String × Except MigError MigResult)
  | _, [] => []
  | idx, z :: rest => (z, (create_zone (envs idx) z).1) :: batchOutcomes envs (idx + 1) rest

/-- Number of tsig-key lookup calls for a given key name in a trace; each
invocation of `get_or_create_tsig_key` issues exactly one such call, first. -/
def countTsigLookups (name : String) : List Event → Nat
  | [] => 0
  | .listTsigKeysCall n :: rest =>
    (if n = name then 1 else 0) + countTsigLookups name rest
  | _ :: rest => countTsigLookups name rest

/-- Events belonging to tsig-key resolution (lookup, source fetch, creation,
poll). -/
def isKeyEvent : Event → Bool
  | .listTsigKeysCall _ => true
  | .dynTsigCall _ => true
  | .createTsigKeyCall _ => true
  | .tsigPollCall _ => true
  | _ => false

/-- Whether `create_zone` will take the early-return (skip) branch: the
existing-zone lookup returned HTTP 200 with a non-empty list. -/
def skipsExisting (env : Env) : Prop :=
  env.listZonesResp.status = 200 ∧ env.listZonesResp.zones ≠ []

/-- Evidence available in the environment that the destination reported the
tsig key with id `k` as ACTIVE: either the lookup listed it first and
ACTIVE, or the key was created (HTTP 201, id `k`) and the lifecycle poll
reached ACTIVE. -/
def tsigActiveEvidence (env : Env) (k : String) : Prop :=
  (env.listTsigKeysResp.status = 200
    ∧ ∃ key ks, env.listTsigKeysResp.keys = key :: ks
        ∧ key.id = k ∧ key.lifecycleState = "ACTIVE")
  ∨ (env.createTsigKeyResp.status = 201 ∧ env.createTsigKeyResp.id = k
      ∧ ∃ n, poll_tsig_key_create env.tsigPoll = .ok n)

/-- Boolean success test for an `Except` value. -/
def exceptIsOk {ε α : Type} : Except ε α → Bool
  | .ok _ => true
  | .error _ => false

lemma create_zone_not_skip (env : Env) (zone_name : String)
    (hns : ¬ skipsExisting env) :
    create_zone env zone_name
      = ((create_zone_after_lookup env zone_name).1,
         .listZonesCall zone_name :: (create_zone_after_lookup env zone_name).2) := by
  unfold create_zone
  by_cases h200 : env.listZonesResp.status = 200
  · have hz : env.listZonesResp.zones = [] := by
      by_contra hne
      exact hns ⟨h200, hne⟩
    simp [h200, hz]
  · simp [h200]

lemma countTsigLookups_append (s : String) (l1 l2 : List Event) :
    countTsigLookups s (l1 ++ l2) = countTsigLookups s l1 + countTsigLookups s l2 := by
  induction l1 with
  | nil => simp [countTsigLookups]
  | cons e rest ih =>
    cases e <;> simp [countTsigLookups, ih]
    omega

/-- Exhaustive enumeration of the branches of `get_or_create_tsig_key`. -/
lemma gooc_cases (env : Env) (s : String) :
    (env.listTsigKeysResp.status ≠ 200
      ∧ get_or_create_tsig_key env s
          = (.error (.lookupFailed env.listTsigKeysResp.opcRequestId), [.listTsigKeysCall s]))
    ∨ (∃ key ks, env.listTsigKeysResp.status = 200 ∧ env.listTsigKeysResp.keys = key :: ks
        ∧ key.lifecycleState ≠ "ACTIVE"
        ∧ get_or_create_tsig_key env s
            = (.error (.invalidState s key.lifecycleState), [.listTsigKeysCall s]))
    ∨ (∃ key ks, env.listTsigKeysResp.status = 200 ∧ env.listTsigKeysResp.keys = key :: ks
        ∧ key.lifecycleState = "ACTIVE"
        ∧ get_or_create_tsig_key env s = (.ok key.id, [.listTsigKeysCall s]))
    ∨ (env.listTsigKeysResp.status = 200 ∧ env.listTsigKeysResp.keys = []
        ∧ env.dynTsig = .error ()
        ∧ get_or_create_tsig_key env s
            = (.error (.dynLookupFailed s), [.listTsigKeysCall s, .dynTsigCall s]))
    ∨ (∃ dk, env.listTsigKeysResp.status = 200 ∧ env.listTsigKeysResp.keys = []
        ∧ env.dynTsig = .ok dk ∧ env.createTsigKeyResp.status ≠ 201
        ∧ get_or_create_tsig_key env s
            = (.error (.createFailed s env.createTsigKeyResp.opcRequestId
                 env.createTsigKeyResp.body),
               [.listTsigKeysCall s, .dynTsigCall s,
                .createTsigKeyCall ⟨s, dk.algorithm, dk.secret, env.tsig_key_compartment⟩]))
    ∨ (∃ dk e, env.listTsigKeysResp.status = 200 ∧ env.listTsigKeysResp.keys = []
        ∧ env.dynTsig = .ok dk ∧ env.createTsigKeyResp.status = 201
        ∧ poll_tsig_key_create env.tsigPoll = .error e
        ∧ get_or_create_tsig_key env s
            = (.error (.awaitFailed s e),
               [.listTsigKeysCall s, .dynTsigCall s,
                .createTsigKeyCall ⟨s, dk.algorithm, dk.secret, env.tsig_key_compartment⟩,
                .tsigPollCall env.createTsigKeyResp.id]))
    ∨ (∃ dk n, env.listTsigKeysResp.status = 200 ∧ env.listTsigKeysResp.keys = []
        ∧ env.dynTsig = .ok dk ∧ env.createTsigKeyResp.status = 201
        ∧ poll_tsig_key_create env.tsigPoll = .ok n
        ∧ get_or_create_tsig_key env s
            = (.ok env.createTsigKeyResp.id,
               [.listTsigKeysCall s, .dynTsigCall s,
                .createTsigKeyCall ⟨s, dk.algorithm, dk.secret, env.tsig_key_compartment⟩,
                .tsigPollCall env.createTsigKeyResp.id])) := by
  by_cases h200 : env.listTsigKeysResp.status = 200
  · cases hk : env.listTsigKeysResp.keys with
    | cons key ks =>
      by_cases ha : key.lifecycleState = "ACTIVE"
      · exact .inr (.inr (.inl ⟨key, ks, h200, rfl, ha,
          by simp [get_or_create_tsig_key, h200, hk, ha]⟩))
      · exact .inr (.inl ⟨key, ks, h200, rfl, ha,
          by simp [get_or_create_tsig_key, h200, hk, ha]⟩)
    | nil =>
      cases hd : env.dynTsig with
      | error u =>
        cases u
        exact .inr (.inr (.inr (.inl ⟨h200, rfl, rfl,
          by simp [get_or_create_tsig_key, h200, hk, hd]⟩)))
      | ok dk =>
        by_cases hc : env.createTsigKeyResp.status = 201
        · cases hp : poll_tsig_key_create env.tsigPoll with
          | error e =>
            exact .inr (.inr (.inr (.inr (.inr (.inl ⟨dk, e, h200, rfl, rfl, hc, rfl,
              by simp [get_or_create_tsig_key, h200, hk, hd, hc, hp]⟩)))))
          | ok n =>
            exact .inr (.inr (.inr (.inr (.inr (.inr ⟨dk, n, h200, rfl, rfl, hc, rfl,
              by simp [get_or_create_tsig_key, h200, hk, hd, hc, hp]⟩)))))
        · exact .inr (.inr (.inr (.inr (.inl ⟨dk, h200, rfl, rfl, hc,
            by simp [get_or_create_tsig_key, h200, hk, hd, hc]⟩))))
  · exact .inl ⟨h200, by simp [get_or_create_tsig_key, h200]⟩

lemma gooc_trace_keyEvents (env : Env) (s : String) :
    ∀ e ∈ (get_or_create_tsig_key env s).2, isKeyEvent e = true := by
  rcases gooc_cases env s with ⟨_, heq⟩ | ⟨key, ks, _, _, _, heq⟩ | ⟨key, ks, _, _, _, heq⟩
    | ⟨_, _, _, heq⟩ | ⟨dk, _, _, _, _, heq⟩ | ⟨dk, e, _, _, _, _, _, heq⟩
    | ⟨dk, n, _, _, _, _, _, heq⟩ <;>
    simp [heq, isKeyEvent]

lemma gooc_trace_head (env : Env) (s : String) :
    ∃ ts, (get_or_create_tsig_key env s).2 = .listTsigKeysCall s :: ts := by
  rcases gooc_cases env s with ⟨_, heq⟩ | ⟨key, ks, _, _, _, heq⟩ | ⟨key, ks, _, _, _, heq⟩
    | ⟨_, _, _, heq⟩ | ⟨dk, _, _, _, _, heq⟩ | ⟨dk, e, _, _, _, _, _, heq⟩
    | ⟨dk, n, _, _, _, _, _, heq⟩ <;>
    exact ⟨_, by rw [heq]⟩

lemma gooc_trace_count (env : Env) (s t : String) :
    countTsigLookups t (get_or_create_tsig_key env s).2 = if s = t then 1 else 0 := by
  rcases gooc_cases env s with ⟨_, heq⟩ | ⟨key, ks, _, _, _, heq⟩ | ⟨key, ks, _, _, _, heq⟩
    | ⟨_, _, _, heq⟩ | ⟨dk, _, _, _, _, heq⟩ | ⟨dk, e, _, _, _, _, _, heq⟩
    | ⟨dk, n, _, _, _, _, _, heq⟩ <;>
    simp [heq, countTsigLookups]

lemma gooc_ok_evidence (env : Env) (s k : String)
    (h : (get_or_create_tsig_key env s).1 = .ok k) :
    tsigActiveEvidence env k := by
  rcases gooc_cases env s with ⟨_, heq⟩ | ⟨key, ks, _, _, _, heq⟩ | ⟨key, ks, h200, hk, ha, heq⟩
    | ⟨_, _, _, heq⟩ | ⟨dk, _, _, _, _, heq⟩ | ⟨dk, e, _, _, _, _, _, heq⟩
    | ⟨dk, n, h200, hk, hd, hc, hp, heq⟩
  · rw [heq] at h; exact absurd h (by simp)
  · rw [heq] at h; exact absurd h (by simp)
  · rw [heq] at h
    simp only [Except.ok.injEq] at h
    exact .inl ⟨h200, key, ks, hk, h, ha⟩
  · rw [heq] at h; exact absurd h (by simp)
  · rw [heq] at h; exact absurd h (by simp)
  · rw [heq] at h; exact absurd h (by simp)
  · rw [heq] at h
    simp only [Except.ok.injEq] at h
    exact .inr ⟨hc, h, n, hp⟩

/-- Exhaustive enumeration of the branches of `finishCreate`. -/
lemma finishCreate_cases (env : Env) (z : String) :
    (env.createZoneResp.status ≠ 201
      ∧ finishCreate env z
          = (.error (.createZoneFailed z env.createZoneResp.opcRequestId
               env.createZoneResp.body), []))
    ∨ (∃ e, env.createZoneResp.status = 201 ∧ poll_zone_create env.zonePoll = .error e
        ∧ finishCreate env z
            = (.error (.zonePollFailed env.createZoneResp.id e),
               [.zonePollCall env.createZoneResp.id]))
    ∨ (∃ n, env.createZoneResp.status = 201 ∧ poll_zone_create env.zonePoll = .ok n
        ∧ finishCreate env z
            = (.ok (.created env.createZoneResp.id),
               [.zonePollCall env.createZoneResp.id])) := by
  by_cases hc : env.createZoneResp.status = 201
  · cases hp : poll_zone_create env.zonePoll with
    | error e => exact .inr (.inl ⟨e, hc, rfl, by simp [finishCreate, hc, hp]⟩)
    | ok n => exact .inr (.inr ⟨n, hc, rfl, by simp [finishCreate, hc, hp]⟩)
  · exact .inl ⟨hc, by simp [finishCreate, hc]⟩

lemma finishCreate_trace (env : Env) (z : String) :
    ∀ e ∈ (finishCreate env z).2, e = Event.zonePollCall env.createZoneResp.id := by
  rcases finishCreate_cases env z with ⟨_, heq⟩ | ⟨e, _, _, heq⟩ | ⟨n, _, _, heq⟩ <;>
    simp [heq]

/-- The secondary-zone creation payload built by `create_zone`: every
external master carries the same `tsigKeyId`. -/
def secondaryPayload (env : Env) (z : String) (sz : DynSecondaryZone)
    (keyId : Option String) : SecondaryZoneData :=
  ⟨z, env.compartment, "SECONDARY", sz.masters.map fun a => ⟨a, keyId⟩⟩

/-- The zone-file text assembled for a primary zone. -/
def assembledZoneFile (z body : String) : String :=
  "$ORIGIN " ++ zone_name_with_dot z ++ "\n" ++ body

/-- Exhaustive enumeration of the branches of `create_zone_after_lookup`. -/
lemma after_lookup_cases (env : Env) (z : String) :
    (env.dynZone = .error ()
      ∧ create_zone_after_lookup env z
          = (.error (.dynZoneLookupFailed z), [.dynZoneCall z]))
    ∨ (∃ dz, env.dynZone = .ok dz ∧ dz.zone_type = "Secondary"
        ∧ env.dynSecondaryZone = .error ()
        ∧ create_zone_after_lookup env z
            = (.error (.dynSecondaryLookupFailed z), [.dynZoneCall z, .dynSecondaryZoneCall z]))
    ∨ (∃ dz sz, env.dynZone = .ok dz ∧ dz.zone_type = "Secondary"
        ∧ env.dynSecondaryZone = .ok sz ∧ sz.tsig_key_name = ""
        ∧ create_zone_after_lookup env z
            = ((finishCreate env z).1,
               .dynZoneCall z :: .dynSecondaryZoneCall z ::
                 .createZoneStructuredCall (secondaryPayload env z sz none)
                   :: (finishCreate env z).2))
    ∨ (∃ dz sz e tr, env.dynZone = .ok dz ∧ dz.zone_type = "Secondary"
        ∧ env.dynSecondaryZone = .ok sz ∧ sz.tsig_key_name ≠ ""
        ∧ get_or_create_tsig_key env sz.tsig_key_name = (.error e, tr)
        ∧ create_zone_after_lookup env z
            = (.error (.tsigKeyFailed z e), .dynZoneCall z :: .dynSecondaryZoneCall z :: tr))
    ∨ (∃ dz sz k tr, env.dynZone = .ok dz ∧ dz.zone_type = "Secondary"
        ∧ env.dynSecondaryZone = .ok sz ∧ sz.tsig_key_name ≠ ""
        ∧ get_or_create_tsig_key env sz.tsig_key_name = (.ok k, tr)
        ∧ create_zone_after_lookup env z
            = ((finishCreate env z).1,
               .dynZoneCall z :: .dynSecondaryZoneCall z ::
                 (tr ++ .createZoneStructuredCall (secondaryPayload env z sz (some k))
                   :: (finishCreate env z).2)))
    ∨ (∃ dz, env.dynZone = .ok dz ∧ dz.zone_type ≠ "Secondary"
        ∧ env.transfer = .error ()
        ∧ create_zone_after_lookup env z
            = (.error (.transferFailed z), [.dynZoneCall z, .transferCall z]))
    ∨ (∃ dz body, env.dynZone = .ok dz ∧ dz.zone_type ≠ "Secondary"
        ∧ env.transfer = .ok body
        ∧ create_zone_after_lookup env z
            = ((finishCreate env z).1,
               .dynZoneCall z :: .transferCall z ::
                 .createZoneFromFileCall (assembledZoneFile z body)
                   :: (finishCreate env z).2)) := by
  cases hdz : env.dynZone with
  | error u =>
    cases u
    exact .inl ⟨rfl, by simp [create_zone_after_lookup, hdz]⟩
  | ok dz =>
    by_cases hsec : dz.zone_type = "Secondary"
    · cases hsz : env.dynSecondaryZone with
      | error u =>
        cases u
        exact .inr (.inl ⟨dz, rfl, hsec, rfl,
          by simp [create_zone_after_lookup, hdz, hsec, hsz]⟩)
      | ok sz =>
        by_cases hname : sz.tsig_key_name = ""
        · refine .inr (.inr (.inl ⟨dz, sz, rfl, hsec, rfl, hname, ?_⟩))
          simp [create_zone_after_lookup, hdz, hsec, hsz, hname, secondaryPayload]
        · rcases hg : get_or_create_tsig_key env sz.tsig_key_name with ⟨res, tr⟩
          cases res with
          | error e =>
            refine .inr (.inr (.inr (.inl ⟨dz, sz, e, tr, rfl, hsec, rfl, hname, hg, ?_⟩)))
            simp [create_zone_after_lookup, hdz, hsec, hsz, hname, hg]
          | ok k =>
            refine .inr (.inr (.inr (.inr (.inl
              ⟨dz, sz, k, tr, rfl, hsec, rfl, hname, hg, ?_⟩))))
            simp [create_zone_after_lookup, hdz, hsec, hsz, hname, hg, secondaryPayload]
    · cases htr : env.transfer with
      | error u =>
        cases u
        exact .inr (.inr (.inr (.inr (.inr (.inl ⟨dz, rfl, hsec, rfl,
          by simp [create_zone_after_lookup, hdz, hsec, htr]⟩)))))
      | ok body =>
        refine .inr (.inr (.inr (.inr (.inr (.inr ⟨dz, body, rfl, hsec, rfl, ?_⟩)))))
        simp [create_zone_after_lookup, hdz, hsec, htr, assembledZoneFile]

lemma not_mem_of_forall {α : Type} {l : List α} {p : α → Prop}
    (h : ∀ e ∈ l, p e) {x : α} (hx : ¬ p x) : x ∉ l :=
  fun hm => hx (h x hm)

/-- A fully concrete environment used by the instance theorems; individual
fields are overridden where an instance needs something specific. -/
def baseEnv : Env :=
  { compartment := "cmp"
  , tsig_key_compartment := "kcmp"
  , listZonesResp := ⟨200, [], none⟩
  , dynZone := .error ()
  , dynSecondaryZone := .error ()
  , listTsigKeysResp := ⟨200, [], none⟩
  , dynTsig := .error ()
  , createTsigKeyResp := ⟨201, "key1", none, "kbody"⟩
  , tsigPoll := fun _ => ⟨200, "ACTIVE", none, "kp"⟩
  , transfer := .error ()
  , createZoneResp := ⟨201, "zone1", none, "zbody"⟩
  , zonePoll := fun _ => ⟨200, "ACTIVE", none, "zp"⟩ }

/-- Claim C5: when the destination reports a same-named zone in the target
compartment (existing-zone lookup answers HTTP 200 with a non-empty list),
`create_zone` returns the skipped-existing outcome carrying that zone's id,
and its trace is the single lookup call: no source-provider call (describe
or transfer) and no zone- or key-creation call is issued, so no zone is
created at the destination. -/
theorem migrate_skips_existing (env : Env) (zone_name : String)
    (w : ZoneSummary) (ws : List ZoneSummary)
    (hs : env.listZonesResp.status = 200)
    (hz : env.listZonesResp.zones = w :: ws) :
    create_zone env zone_name
      = (.ok (.skippedExisting w.id), [.listZonesCall zone_name]) := by
  simp [create_zone, hs, hz]

/-- Witness for C5: a destination reporting an existing zone zX makes the
migration of example.com skip after the lookup call alone. -/
theorem migrate_skips_existing_witness :
    create_zone { baseEnv with listZonesResp := ⟨200, [⟨"zX"⟩], none⟩ } "example.com"
      = (.ok (.skippedExisting "zX"), [.listZonesCall "example.com"]) :=
  migrate_skips_existing _ "example.com" ⟨"zX"⟩ [] rfl rfl

/-- Claim C6: when the destination tsig-key lookup finds an existing key
(HTTP 200, non-empty list): if its lifecycleState is ACTIVE the resolution
returns that key's id with the lookup as its only call (no creation); if its
lifecycleState is anything else the resolution fails with the invalid-state
error carrying that state, again with the lookup as its only call (no
creation and no repair attempted). -/
theorem tsig_found_key_policy (env : Env) (n : String)
    (key : TsigKeySummary) (ks : List TsigKeySummary)
    (hs : env.listTsigKeysResp.status = 200)
    (hk : env.listTsigKeysResp.keys = key :: ks) :
    (key.lifecycleState = "ACTIVE" →
      get_or_create_tsig_key env n = (.ok key.id, [.listTsigKeysCall n]))
    ∧ (key.lifecycleState ≠ "ACTIVE" →
      get_or_create_tsig_key env n
        = (.error (.invalidState n key.lifecycleState), [.listTsigKeysCall n])) := by
  constructor <;> intro h <;> simp [get_or_create_tsig_key, hs, hk, h]

/-- Witness for C6: a found key in state CREATING makes resolution fail with
the invalid-state error, without any creation call. -/
theorem tsig_found_key_policy_witness :
    get_or_create_tsig_key
        { baseEnv with listTsigKeysResp := ⟨200, [⟨"ocid-k", "CREATING"⟩], none⟩ } "k"
      = (.error (.invalidState "k" "CREATING"), [.listTsigKeysCall "k"]) :=
  (tsig_found_key_policy _ "k" ⟨"ocid-k", "CREATING"⟩ [] rfl rfl).2 (by decide)

/-- Claim C9: on the primary path (source zone type differs from Secondary)
with a successful transfer, the zone-file text submitted by the
create-from-zone-file call is exactly the line `$ORIGIN <zone>.` followed by
a newline and the transferred records, where the origin is the supplied name
with one trailing dot appended when it lacks one and unchanged when it
already ends in a dot. -/
theorem primary_zone_file_spec (env : Env) (zone_name body t : String)
    (hns : ¬ skipsExisting env)
    (hdz : env.dynZone = .ok ⟨t⟩)
    (ht : t ≠ "Secondary")
    (htr : env.transfer = .ok body) :
    (∃ tail,
      (create_zone env zone_name).2
        = .listZonesCall zone_name :: .dynZoneCall zone_name :: .transferCall zone_name ::
            .createZoneFromFileCall
              ("$ORIGIN " ++ zone_name_with_dot zone_name ++ "\n" ++ body) :: tail)
    ∧ (ends_with_dot zone_name = true → zone_name_with_dot zone_name = zone_name)
    ∧ (ends_with_dot zone_name = false →
        zone_name_with_dot zone_name = zone_name ++ ".") := by
  refine ⟨⟨(finishCreate env zone_name).2, ?_⟩, ?_, ?_⟩
  · rw [create_zone_not_skip env zone_name hns]
    simp [create_zone_after_lookup, hdz, ht, htr]
  · intro h; simp [zone_name_with_dot, h]
  · intro h; simp [zone_name_with_dot, h]

/-- Witness for C9: migrating example.com (no trailing dot) with transferred
body produces a zone file beginning with the $ORIGIN line for
example.com. with the dot appended. -/
theorem primary_zone_file_spec_witness :
    (∃ tail,
      (create_zone
          { baseEnv with dynZone := .ok ⟨"Primary"⟩, transfer := .ok "@ IN SOA a b 1" }
          "example.com").2
        = .listZonesCall "example.com" :: .dynZoneCall "example.com"
            :: .transferCall "example.com" ::
            .createZoneFromFileCall
              ("$ORIGIN " ++ zone_name_with_dot "example.com" ++ "\n" ++ "@ IN SOA a b 1")
              :: tail)
    ∧ (ends_with_dot "example.com" = true →
        zone_name_with_dot "example.com" = "example.com")
    ∧ (ends_with_dot "example.com" = false →
        zone_name_with_dot "example.com" = "example.com" ++ ".") :=
  primary_zone_file_spec _ "example.com" "@ IN SOA a b 1" "Primary"
    (by simp [skipsExisting, baseEnv]) rfl (by decide) rfl

/-- Events that occur only on the secondary-zone path. -/
def isSecondaryEvent : Event → Bool
  | .dynSecondaryZoneCall _ => true
  | .createZoneStructuredCall _ => true
  | _ => false

/-- Events that occur only on the primary-zone path. -/
def isPrimaryEvent : Event → Bool
  | .transferCall _ => true
  | .createZoneFromFileCall _ => true
  | _ => false

lemma keyEvent_not_path (e : Event) (h : isKeyEvent e = true) :
    isPrimaryEvent e = false ∧ isSecondaryEvent e = false := by
  cases e <;> simp_all [isKeyEvent, isPrimaryEvent, isSecondaryEvent]

/-- Claim C10: after the existing-zone check, the migration path is chosen
by comparing the source zone type with the exact string Secondary: any other
type string takes the primary path (a zone transfer is attempted, a
successful transfer is submitted through the create-from-zone-file call, and
no secondary-zone fetch or structured-zone creation happens), while exactly
Secondary takes the secondary path (the secondary zone is fetched and no
transfer or file-based creation happens). -/
theorem zone_type_dispatch (env : Env) (z : String) (dz : DynZone)
    (hns : ¬ skipsExisting env) (hdz : env.dynZone = .ok dz) :
    (dz.zone_type ≠ "Secondary" →
      Event.transferCall z ∈ (create_zone env z).2
      ∧ (∀ body, env.transfer = .ok body →
          Event.createZoneFromFileCall (assembledZoneFile z body) ∈ (create_zone env z).2)
      ∧ (∀ e ∈ (create_zone env z).2, isSecondaryEvent e = false))
    ∧ (dz.zone_type = "Secondary" →
      Event.dynSecondaryZoneCall z ∈ (create_zone env z).2
      ∧ ∀ e ∈ (create_zone env z).2, isPrimaryEvent e = false) := by
  have hcz := create_zone_not_skip env z hns
  have hfc := finishCreate_trace env z
  constructor
  · intro hsec
    cases htr : env.transfer with
    | error u =>
      cases u
      have heq : create_zone_after_lookup env z
          = (.error (.transferFailed z), [.dynZoneCall z, .transferCall z]) := by
        simp [create_zone_after_lookup, hdz, hsec, htr]
      rw [hcz, heq]
      refine ⟨by simp, ?_, ?_⟩
      · intro body hb
        exact absurd hb (by simp)
      · simp [isSecondaryEvent]
    | ok body =>
      have heq : create_zone_after_lookup env z
          = ((finishCreate env z).1,
             .dynZoneCall z :: .transferCall z ::
               .createZoneFromFileCall (assembledZoneFile z body)
                 :: (finishCreate env z).2) := by
        simp [create_zone_after_lookup, hdz, hsec, htr, assembledZoneFile]
      rw [hcz, heq]
      refine ⟨by simp, ?_, ?_⟩
      · intro b hb
        simp only [Except.ok.injEq] at hb
        subst hb
        simp
      · intro e he
        simp only [List.mem_cons] at he
        rcases he with rfl | rfl | rfl | rfl | he
        · rfl
        · rfl
        · rfl
        · rfl
        · rw [hfc e he]; rfl
  · intro hsec
    cases hsz : env.dynSecondaryZone with
    | error u =>
      cases u
      have heq : create_zone_after_lookup env z
          = (.error (.dynSecondaryLookupFailed z),
             [.dynZoneCall z, .dynSecondaryZoneCall z]) := by
        simp [create_zone_after_lookup, hdz, hsec, hsz]
      rw [hcz, heq]
      exact ⟨by simp, by simp [isPrimaryEvent]⟩
    | ok sz =>
      by_cases hname : sz.tsig_key_name = ""
      · have heq : create_zone_after_lookup env z
            = ((finishCreate env z).1,
               .dynZoneCall z :: .dynSecondaryZoneCall z ::
                 .createZoneStructuredCall (secondaryPayload env z sz none)
                   :: (finishCreate env z).2) := by
          simp [create_zone_after_lookup, hdz, hsec, hsz, hname, secondaryPayload]
        rw [hcz, heq]
        refine ⟨by simp, ?_⟩
        intro e he
        simp only [List.mem_cons] at he
        rcases he with rfl | rfl | rfl | rfl | he
        · rfl
        · rfl
        · rfl
        · rfl
        · rw [hfc e he]; rfl
      · rcases hg : get_or_create_tsig_key env sz.tsig_key_name with ⟨res, tr⟩
        have htrk : ∀ e ∈ tr, isKeyEvent e = true := by
          have := gooc_trace_keyEvents env sz.tsig_key_name
          rw [hg] at this
          exact this
        cases res with
        | error e0 =>
          have heq : create_zone_after_lookup env z
              = (.error (.tsigKeyFailed z e0),
                 .dynZoneCall z :: .dynSecondaryZoneCall z :: tr) := by
            simp [create_zone_after_lookup, hdz, hsec, hsz, hname, hg]
          rw [hcz, heq]
          refine ⟨by simp, ?_⟩
          intro e he
          simp only [List.mem_cons] at he
          rcases he with rfl | rfl | rfl | he
          · rfl
          · rfl
          · rfl
          · exact (keyEvent_not_path e (htrk e he)).1
        | ok k =>
          have heq : create_zone_after_lookup env z
              = ((finishCreate env z).1,
                 .dynZoneCall z :: .dynSecondaryZoneCall z ::
                   (tr ++ .createZoneStructuredCall (secondaryPayload env z sz (some k))
                     :: (finishCreate env z).2)) := by
            simp [create_zone_after_lookup, hdz, hsec, hsz, hname, hg, secondaryPayload]
          rw [hcz, heq]
          refine ⟨by simp, ?_⟩
          intro e he
          simp only [List.mem_cons, List.mem_append] at he
          rcases he with rfl | rfl | rfl | he | rfl | he
          · rfl
          · rfl
          · rfl
          · exact (keyEvent_not_path e (htrk e he)).1
          · rfl
          · rw [hfc e he]; rfl

/-- Concatenated per-zone traces of a batch. -/
def batchTrace (envs : Nat → Env) : Nat → List String → List Event
  | _, [] => []
  | idx, z :: rest => (create_zone (envs idx) z).2 ++ batchTrace envs (idx + 1) rest

lemma runBatchAux_true_eq (envs : Nat → Env) :
    ∀ (zs : List String) (idx : Nat),
      runBatchAux envs true idx zs
        = ⟨.ok (batchOutcomes envs idx zs), zs, batchTrace envs idx zs⟩ := by
  intro zs
  induction zs with
  | nil => intro idx; rfl
  | cons z rest ih =>
    intro idx
    unfold runBatchAux
    cases hc : (create_zone (envs idx) z).1 with
    | ok r => simp [hc, ih (idx + 1), batchOutcomes, batchTrace, Except.map]
    | error e => simp [hc, ih (idx + 1), batchOutcomes, batchTrace, Except.map]

lemma map_fst_batchOutcomes (envs : Nat → Env) :
    ∀ (zs : List String) (idx : Nat),
      (batchOutcomes envs idx zs).map Prod.fst = zs := by
  intro zs
  induction zs with
  | nil => intro idx; rfl
  | cons z rest ih => intro idx; simp [batchOutcomes, ih (idx + 1)]

lemma runBatchAux_false_fail (envs : Nat → Env) (z : String) (post : List String)
    (e : MigError) :
    ∀ (pre : List String) (idx : Nat),
      (∀ i, (h : i < pre.length) →
        exceptIsOk (create_zone (envs (idx + i)) (pre.get ⟨i, h⟩)).1 = true) →
      (create_zone (envs (idx + pre.length)) z).1 = .error e →
      (runBatchAux envs false idx (pre ++ z :: post)).result = .error (z, e)
      ∧ (runBatchAux envs false idx (pre ++ z :: post)).attempted = pre ++ [z] := by
  intro pre
  induction pre with
  | nil =>
    intro idx _ hfail
    simp only [List.length_nil, Nat.add_zero] at hfail
    simp only [List.nil_append]
    unfold runBatchAux
    simp [hfail]
  | cons a pre ih =>
    intro idx hok hfail
    have h0 : exceptIsOk (create_zone (envs (idx + 0)) a).1 = true := hok 0 (by simp)
    simp only [Nat.add_zero] at h0
    obtain ⟨r, hr⟩ : ∃ r, (create_zone (envs idx) a).1 = .ok r := by
      cases hcase : (create_zone (envs idx) a).1 with
      | ok r => exact ⟨r, rfl⟩
      | error e0 => rw [hcase] at h0; exact absurd h0 (by simp [exceptIsOk])
    have hok' : ∀ i, (h : i < pre.length) →
        exceptIsOk (create_zone (envs (idx + 1 + i)) (pre.get ⟨i, h⟩)).1 = true := by
      intro i h
      have := hok (i + 1) (by simpa using Nat.succ_lt_succ h)
      have harith : idx + (i + 1) = idx + 1 + i := by omega
      rw [harith] at this
      simpa using this
    have hfail' : (create_zone (envs (idx + 1 + pre.length)) z).1 = .error e := by
      have harith : idx + (a :: pre).length = idx + 1 + pre.length := by
        simp [List.length_cons]; omega
      rwa [harith] at hfail
    have hrec := ih (idx + 1) hok' hfail'
    simp only [List.cons_append]
    unfold runBatchAux
    simp [hr, hrec.1, hrec.2, Except.map]

/-- Claim C7: the batch runner processes zone names in the given order
(with the continue policy the outcomes list pairs exactly the given names in
order with each zone's own result); when a zone fails and ignore-failures is
false, the error propagates at once and no later zone is attempted (exactly
the successful prefix and the failing zone are attempted); when
ignore-failures is true every zone is attempted and failures are recorded in
place; and the default of the flag is true. -/
theorem batch_order_and_policy :
    ignore_failures_default = true
    ∧ (∀ (envs : Nat → Env) (zs : List String),
        (migrate_zones envs true zs).result = .ok (batchOutcomes envs 0 zs)
        ∧ (migrate_zones envs true zs).attempted = zs
        ∧ (batchOutcomes envs 0 zs).map Prod.fst = zs)
    ∧ (∀ (envs : Nat → Env) (pre : List String) (z : String) (post : List String)
          (e : MigError),
        (∀ i, (h : i < pre.length) →
          exceptIsOk (create_zone (envs i) (pre.get ⟨i, h⟩)).1 = true) →
        (create_zone (envs pre.length) z).1 = .error e →
        (migrate_zones envs false (pre ++ z :: post)).result = .error (z, e)
        ∧ (migrate_zones envs false (pre ++ z :: post)).attempted = pre ++ [z]) := by
  refine ⟨rfl, ?_, ?_⟩
  · intro envs zs
    rw [migrate_zones, runBatchAux_true_eq envs zs 0]
    exact ⟨rfl, rfl, map_fst_batchOutcomes envs zs 0⟩
  · intro envs pre z post e hok hfail
    refine runBatchAux_false_fail envs z post e pre 0 ?_ ?_
    · intro i h
      have := hok i h
      simpa using this
    · simpa using hfail

/-- Witness for C7: with zones [a.com, b.com, c.com] where a.com succeeds
(already present at the destination) and b.com fails, the fail-fast run
stops with the error on b.com after attempting only a.com and b.com. -/
theorem batch_order_and_policy_witness :
    (migrate_zones
        (fun i => if i = 0 then { baseEnv with listZonesResp := ⟨200, [⟨"zX"⟩], none⟩ }
          else baseEnv)
        false (["a.com"] ++ "b.com" :: ["c.com"])).result
      = .error ("b.com", .dynZoneLookupFailed "b.com")
    ∧ (migrate_zones
        (fun i => if i = 0 then { baseEnv with listZonesResp := ⟨200, [⟨"zX"⟩], none⟩ }
          else baseEnv)
        false (["a.com"] ++ "b.com" :: ["c.com"])).attempted
      = ["a.com"] ++ ["b.com"] :=
  batch_order_and_policy.2.2 _ ["a.com"] "b.com" ["c.com"] (.dynZoneLookupFailed "b.com")
    (by
      intro i h
      have h1 : i < 1 := by simpa using h
      have hi : i = 0 := by omega
      subst hi
      rfl)
    rfl

/-- Claim C4 as stated is false: with ignore-failures disabled, a failure
inside a zone's migration is not returned as a structured per-zone result —
it propagates past the per-zone boundary, aborting the batch: migrating
[a.com, b.com] where a.com's source lookup fails yields the escaped error
and b.com is never attempted. -/
theorem failure_propagation_counterexample :
    (migrate_zones (fun _ => baseEnv) false ["a.com", "b.com"]).result
      = .error ("a.com", .dynZoneLookupFailed "a.com")
    ∧ (migrate_zones (fun _ => baseEnv) false ["a.com", "b.com"]).attempted
      = ["a.com"] :=
  ⟨rfl, rfl⟩

/-- Claim C4 amended: failures inside a zone's migration surface as
exceptions from `create_zone`; the per-zone loop contains them only when
ignore-failures is true, in which case every zone gets a structured per-zone
outcome and no exception escapes the batch; when ignore-failures is false
the first failing zone's exception propagates past the per-zone boundary
immediately. -/
theorem failure_containment_policy :
    (∀ (envs : Nat → Env) (zs : List String),
      (migrate_zones envs true zs).result = .ok (batchOutcomes envs 0 zs)
      ∧ (batchOutcomes envs 0 zs).map Prod.fst = zs)
    ∧ (∀ (envs : Nat → Env) (z : String) (rest : List String) (e : MigError),
        (create_zone (envs 0) z).1 = .error e →
        (migrate_zones envs false (z :: rest)).result = .error (z, e)
        ∧ (migrate_zones envs false (z :: rest)).attempted = [z]) := by
  constructor
  · intro envs zs
    rw [migrate_zones, runBatchAux_true_eq envs zs 0]
    exact ⟨rfl, map_fst_batchOutcomes envs zs 0⟩
  · intro envs z rest e hfail
    rw [migrate_zones]
    unfold runBatchAux
    simp [hfail]

/-- Witness for C4 (amended): a source-lookup failure on the sole zone of a
fail-fast batch escapes as the batch-level error. -/
theorem failure_containment_policy_witness :
    (migrate_zones (fun _ => baseEnv) false ("a.com" :: ["b.com"])).result
      = .error ("a.com", .dynZoneLookupFailed "a.com")
    ∧ (migrate_zones (fun _ => baseEnv) false ("a.com" :: ["b.com"])).attempted
      = ["a.com"] :=
  failure_containment_policy.2 (fun _ => baseEnv) "a.com" ["b.com"]
    (.dynZoneLookupFailed "a.com") rfl

lemma countTsigLookups_zero_of_no_lookup (s : String) :
    ∀ (l : List Event), (∀ n, Event.listTsigKeysCall n ∉ l) → countTsigLookups s l = 0 := by
  intro l
  induction l with
  | nil => intro _; rfl
  | cons e rest ih =>
    intro h
    have hrest : ∀ n, Event.listTsigKeysCall n ∉ rest := by
      intro n hn
      exact h n (List.mem_cons_of_mem e hn)
    cases e
    case listTsigKeysCall n => exact absurd (List.mem_cons_self _ _) (h n)
    all_goals simp [countTsigLookups, ih hrest]

lemma finishCreate_no_lookup (env : Env) (z : String) :
    ∀ n, Event.listTsigKeysCall n ∉ (finishCreate env z).2 := by
  intro n
  exact not_mem_of_forall (finishCreate_trace env z) (by simp)

lemma create_zone_count_le_one (env : Env) (z s : String) :
    countTsigLookups s (create_zone env z).2 ≤ 1 := by
  have hfc0 : countTsigLookups s (finishCreate env z).2 = 0 :=
    countTsigLookups_zero_of_no_lookup s _ (finishCreate_no_lookup env z)
  by_cases hns : skipsExisting env
  · obtain ⟨h200, hzne⟩ := hns
    cases hz : env.listZonesResp.zones with
    | nil => exact absurd hz hzne
    | cons w ws => simp [create_zone, h200, hz, countTsigLookups]
  · rw [create_zone_not_skip env z hns]
    rcases after_lookup_cases env z with ⟨_, heq⟩ | ⟨dz, _, _, _, heq⟩
      | ⟨dz, sz, _, _, _, _, heq⟩ | ⟨dz, sz, e, tr, _, _, _, _, hg, heq⟩
      | ⟨dz, sz, k, tr, _, _, _, _, hg, heq⟩ | ⟨dz, _, _, _, heq⟩
      | ⟨dz, body, _, _, _, heq⟩ <;> rw [heq]
    · simp [countTsigLookups]
    · simp [countTsigLookups]
    · simp [countTsigLookups, hfc0]
    · have htr : countTsigLookups s tr = if sz.tsig_key_name = s then 1 else 0 := by
        have := gooc_trace_count env sz.tsig_key_name s
        rw [hg] at this
        exact this
      simp only [countTsigLookups, htr]
      split <;> omega
    · have htr : countTsigLookups s tr = if sz.tsig_key_name = s then 1 else 0 := by
        have := gooc_trace_count env sz.tsig_key_name s
        rw [hg] at this
        exact this
      simp only [countTsigLookups, countTsigLookups_append, htr, hfc0]
      split <;> omega
    · simp [countTsigLookups]
    · simp [countTsigLookups, hfc0]

lemma runBatchAux_cons (envs : Nat → Env) (ig : Bool) (idx : Nat) (z : String)
    (rest : List String) :
    runBatchAux envs ig idx (z :: rest)
      = match (create_zone (envs idx) z).1 with
        | .ok r =>
          ⟨((runBatchAux envs ig (idx + 1) rest).result).map (fun rs => (z, .ok r) :: rs),
           z :: (runBatchAux envs ig (idx + 1) rest).attempted,
           (create_zone (envs idx) z).2 ++ (runBatchAux envs ig (idx + 1) rest).trace⟩
        | .error e =>
          if ig then
            ⟨((runBatchAux envs ig (idx + 1) rest).result).map
               (fun rs => (z, .error e) :: rs),
             z :: (runBatchAux envs ig (idx + 1) rest).attempted,
             (create_zone (envs idx) z).2 ++ (runBatchAux envs ig (idx + 1) rest).trace⟩
          else ⟨.error (z, e), [z], (create_zone (envs idx) z).2⟩ := by
  conv_lhs => unfold runBatchAux

lemma runBatch_count_le (envs : Nat → Env) (ig : Bool) (s : String) :
    ∀ (zs : List String) (idx : Nat),
      countTsigLookups s (runBatchAux envs ig idx zs).trace ≤ zs.length := by
  intro zs
  induction zs with
  | nil => intro idx; simp [runBatchAux, countTsigLookups]
  | cons z rest ih =>
    intro idx
    have h1 := create_zone_count_le_one (envs idx) z s
    have h2 := ih (idx + 1)
    have htr : (runBatchAux envs ig idx (z :: rest)).trace
        = (create_zone (envs idx) z).2 ++ (runBatchAux envs ig (idx + 1) rest).trace
      ∨ (runBatchAux envs ig idx (z :: rest)).trace = (create_zone (envs idx) z).2 := by
      rw [runBatchAux_cons]
      cases hc : (create_zone (envs idx) z).1 with
      | ok r => left; rfl
      | error e =>
        cases ig with
        | true => left; rfl
        | false => right; rfl
    rcases htr with h | h <;> rw [h]
    · rw [countTsigLookups_append]
      simp only [List.length_cons]
      omega
    · simp only [List.length_cons]
      omega

/-- Every structured-zone-creation payload issued by `create_zone` is the
payload built from the secondary zone's master list with one shared key id. -/
lemma czs_payload (env : Env) (z : String) (p : SecondaryZoneData)
    (hp : Event.createZoneStructuredCall p ∈ (create_zone env z).2) :
    ∃ sz keyId, env.dynSecondaryZone = .ok sz ∧ p = secondaryPayload env z sz keyId := by
  have hfc := finishCreate_trace env z
  have hfcnot : Event.createZoneStructuredCall p ∉ (finishCreate env z).2 :=
    not_mem_of_forall hfc (by simp)
  by_cases hns : skipsExisting env
  · obtain ⟨h200, hzne⟩ := hns
    cases hz : env.listZonesResp.zones with
    | nil => exact absurd hz hzne
    | cons w ws =>
      rw [migrate_skips_existing env z w ws h200 hz] at hp
      exact absurd hp (by simp)
  · rw [create_zone_not_skip env z hns] at hp
    rcases after_lookup_cases env z with ⟨_, heq⟩ | ⟨dz, _, _, _, heq⟩
      | ⟨dz, sz, _, _, hsz, _, heq⟩ | ⟨dz, sz, e, tr, _, _, hsz, _, hg, heq⟩
      | ⟨dz, sz, k, tr, _, _, hsz, _, hg, heq⟩ | ⟨dz, _, _, _, heq⟩
      | ⟨dz, body, _, _, _, heq⟩ <;> rw [heq] at hp
    · exact absurd hp (by simp)
    · exact absurd hp (by simp)
    · simp only [List.mem_cons] at hp
      rcases hp with h | h | h | h | h
      · exact absurd h (by simp)
      · exact absurd h (by simp)
      · exact absurd h (by simp)
      · exact ⟨sz, none, hsz, by injection h⟩
      · exact absurd h hfcnot
    · have htrk : ∀ e0 ∈ tr, isKeyEvent e0 = true := by
        have := gooc_trace_keyEvents env sz.tsig_key_name
        rw [hg] at this
        exact this
      simp only [List.mem_cons] at hp
      rcases hp with h | h | h | h
      · exact absurd h (by simp)
      · exact absurd h (by simp)
      · exact absurd h (by simp)
      · exact absurd (htrk _ h) (by simp [isKeyEvent])
    · have htrk : ∀ e0 ∈ tr, isKeyEvent e0 = true := by
        have := gooc_trace_keyEvents env sz.tsig_key_name
        rw [hg] at this
        exact this
      simp only [List.mem_cons, List.mem_append] at hp
      rcases hp with h | h | h | h | h | h
      · exact absurd h (by simp)
      · exact absurd h (by simp)
      · exact absurd h (by simp)
      · exact absurd (htrk _ h) (by simp [isKeyEvent])
      · exact ⟨sz, some k, hsz, by injection h⟩
      · exact absurd h hfcnot
    · exact absurd hp (by simp)
    · simp only [List.mem_cons] at hp
      rcases hp with h | h | h | h | h
      · exact absurd h (by simp)
      · exact absurd h (by simp)
      · exact absurd h (by simp)
      · exact absurd h (by simp)
      · exact absurd h hfcnot

/-- Environment of a secondary zone using tsig key name k that the
destination already holds as an ACTIVE key. -/
def envSecShared : Env :=
  { baseEnv with
    dynZone := .ok ⟨"Secondary"⟩
    dynSecondaryZone := .ok ⟨"k", ["192.0.2.1"]⟩
    listTsigKeysResp := ⟨200, [⟨"ocid-key", "ACTIVE"⟩], none⟩ }

/-- Claim C2 as stated is false: `get_or_create_tsig_key` has no per-name
memoization, so a batch of two secondary zones sharing the tsig key name k
invokes it twice — the trace holds two tsig-key lookup calls for k (each
invocation issues exactly one such call, as its first action), not at most
one per distinct key name. -/
theorem tsig_resolution_per_key_counterexample :
    countTsigLookups "k"
        (migrate_zones (fun _ => envSecShared) true ["a.com", "b.com"]).trace = 2 := by
  rfl

/-- Claim C2 amended: `get_or_create_tsig_key` is invoked at most once per
zone (so at most as many times as there are zones in the batch, rather than
at most once per distinct key name), and within each secondary zone's
creation payload the `tsigKeyId` field is identical across all
`externalMasters` entries. -/
theorem tsig_resolution_amended :
    (∀ (env : Env) (z s : String), countTsigLookups s (create_zone env z).2 ≤ 1)
    ∧ (∀ (envs : Nat → Env) (ig : Bool) (zs : List String) (s : String),
        countTsigLookups s (migrate_zones envs ig zs).trace ≤ zs.length)
    ∧ (∀ (env : Env) (z : String) (p : SecondaryZoneData),
        Event.createZoneStructuredCall p ∈ (create_zone env z).2 →
        ∀ m1, m1 ∈ p.externalMasters → ∀ m2, m2 ∈ p.externalMasters →
          m1.tsigKeyId = m2.tsigKeyId) := by
  refine ⟨fun env z s => create_zone_count_le_one env z s,
    fun envs ig zs s => runBatch_count_le envs ig s zs 0, ?_⟩
  intro env z p hp m1 hm1 m2 hm2
  obtain ⟨sz, keyId, hsz, rfl⟩ := czs_payload env z p hp
  simp only [secondaryPayload, List.mem_map] at hm1 hm2
  obtain ⟨a1, _, rfl⟩ := hm1
  obtain ⟨a2, _, rfl⟩ := hm2
  rfl

/-- Witness for C2 (amended): in the concrete secondary-zone run the single
payload's master entries all carry the same key id. -/
theorem tsig_resolution_amended_witness :
    (ExternalMaster.mk "192.0.2.1" (some "ocid-key")).tsigKeyId
      = (ExternalMaster.mk "192.0.2.1" (some "ocid-key")).tsigKeyId :=
  tsig_resolution_amended.2.2 envSecShared "a.com"
    (secondaryPayload envSecShared "a.com" ⟨"k", ["192.0.2.1"]⟩ (some "ocid-key"))
    (by decide)
    ⟨"192.0.2.1", some "ocid-key"⟩ (by decide)
    ⟨"192.0.2.1", some "ocid-key"⟩ (by decide)

/-- If the migration issued a zone-creation call (structured or from file),
its outcome is the outcome of the shared creation tail. -/
lemma create_event_result (env : Env) (z : String)
    (h : (∃ p, Event.createZoneStructuredCall p ∈ (create_zone env z).2)
       ∨ (∃ f, Event.createZoneFromFileCall f ∈ (create_zone env z).2)) :
    (create_zone env z).1 = (finishCreate env z).1 := by
  by_cases hns : skipsExisting env
  · exfalso
    obtain ⟨h200, hzne⟩ := hns
    cases hz : env.listZonesResp.zones with
    | nil => exact hzne hz
    | cons w ws =>
      rcases h with ⟨p, hp⟩ | ⟨f, hp⟩ <;>
        rw [migrate_skips_existing env z w ws h200 hz] at hp <;> simp at hp
  · rw [create_zone_not_skip env z hns] at h ⊢
    rcases after_lookup_cases env z with ⟨_, heq⟩ | ⟨dz, _, _, _, heq⟩
      | ⟨dz, sz, _, _, _, _, heq⟩ | ⟨dz, sz, e0, tr, _, _, _, _, hg, heq⟩
      | ⟨dz, sz, k, tr, _, _, _, _, hg, heq⟩ | ⟨dz, _, _, _, heq⟩
      | ⟨dz, body, _, _, _, heq⟩ <;> rw [heq] at h ⊢
    · exfalso; rcases h with ⟨p, hp⟩ | ⟨f, hp⟩ <;> simp at hp
    · exfalso; rcases h with ⟨p, hp⟩ | ⟨f, hp⟩ <;> simp at hp
    · exfalso
      have htrk : ∀ e1 ∈ tr, isKeyEvent e1 = true := by
        have := gooc_trace_keyEvents env sz.tsig_key_name
        rw [hg] at this
        exact this
      rcases h with ⟨p, hp⟩ | ⟨f, hp⟩ <;> simp only [List.mem_cons] at hp <;>
        rcases hp with h1 | h1 | h1 | h1 <;>
          first
            | exact absurd h1 (by simp)
            | exact absurd (htrk _ h1) (by simp [isKeyEvent])
    · exfalso; rcases h with ⟨p, hp⟩ | ⟨f, hp⟩ <;> simp at hp

/-- Environment producing the C1 counterexample: the existing-zone lookup
answers HTTP 500, everything downstream succeeds. -/
def envC1 : Env :=
  { baseEnv with
    listZonesResp := ⟨500, [], none⟩
    dynZone := .ok ⟨"Primary"⟩
    transfer := .ok "@ IN SOA a b 1" }

/-- Claim C1 as stated is false: when the existing-zone lookup at the start
of the migration returns a non-2xx response (HTTP 500 here), the migration
does not fail — the response is silently ignored, the zone-creation call is
still issued, and the run succeeds. -/
theorem lookup_error_ignored_counterexample :
    (create_zone envC1 "example.com").1 = .ok (.created "zone1")
    ∧ (create_zone envC1 "example.com").2
      = [.listZonesCall "example.com", .dynZoneCall "example.com",
         .transferCall "example.com",
         .createZoneFromFileCall ("$ORIGIN example.com.\n@ IN SOA a b 1"),
         .zonePollCall "zone1"] :=
  ⟨rfl, rfl⟩

/-- Claim C1 amended: a non-2xx response from the existing-zone lookup is
ignored — the migration proceeds exactly as when no existing zone is found —
while a non-2xx (non-201) response to an issued zone-creation call fails the
migration with the error carrying the response body and the
request-correlation id (the numeric HTTP status is recorded in no error). -/
theorem nonok_response_handling :
    (∀ (env : Env) (z : String), env.listZonesResp.status ≠ 200 →
      create_zone env z
        = ((create_zone_after_lookup env z).1,
           .listZonesCall z :: (create_zone_after_lookup env z).2))
    ∧ (∀ (env : Env) (z : String),
        env.createZoneResp.status ≠ 201 →
        ((∃ p, Event.createZoneStructuredCall p ∈ (create_zone env z).2)
          ∨ (∃ f, Event.createZoneFromFileCall f ∈ (create_zone env z).2)) →
        (create_zone env z).1
          = .error (.createZoneFailed z env.createZoneResp.opcRequestId
              env.createZoneResp.body)) := by
  constructor
  · intro env z h
    exact create_zone_not_skip env z (fun hsk => h hsk.1)
  · intro env z h201 h
    rw [create_event_result env z h]
    simp [finishCreate, h201]

/-- Witness for C1 (amended): with the HTTP-500 lookup environment the
migration takes the proceed path behind the lookup call. -/
theorem nonok_response_handling_witness :
    create_zone envC1 "example.com"
      = ((create_zone_after_lookup envC1 "example.com").1,
         .listZonesCall "example.com"
           :: (create_zone_after_lookup envC1 "example.com").2) :=
  nonok_response_handling.1 envC1 "example.com" (by decide)

/-- Claim C8: on the secondary path, when the source zone has no TSIG key
name, no tsig-key call of any kind occurs and every master in the issued
payload carries a null key id; and whenever the issued payload references a
key id, the destination reported that key ACTIVE (found ACTIVE by the
lookup, or created and polled to ACTIVE) by calls that precede the
zone-creation request in the trace. -/
theorem secondary_tsig_key_invariant (env : Env) (z : String) (sz : DynSecondaryZone)
    (hns : ¬ skipsExisting env)
    (hdz : env.dynZone = .ok ⟨"Secondary"⟩)
    (hsz : env.dynSecondaryZone = .ok sz) :
    (sz.tsig_key_name = "" →
      (∀ e ∈ (create_zone env z).2, isKeyEvent e = false)
      ∧ ∀ p, Event.createZoneStructuredCall p ∈ (create_zone env z).2 →
          ∀ m ∈ p.externalMasters, m.tsigKeyId = none)
    ∧ (∀ p k, Event.createZoneStructuredCall p ∈ (create_zone env z).2 →
        (∃ m, m ∈ p.externalMasters ∧ m.tsigKeyId = some k) →
        tsigActiveEvidence env k
        ∧ ∃ pre post,
            (create_zone env z).2 = pre ++ Event.createZoneStructuredCall p :: post
            ∧ Event.listTsigKeysCall sz.tsig_key_name ∈ pre) := by
  have hfc := finishCreate_trace env z
  rw [create_zone_not_skip env z hns]
  by_cases hname : sz.tsig_key_name = ""
  · have heq : create_zone_after_lookup env z
        = ((finishCreate env z).1,
           .dynZoneCall z :: .dynSecondaryZoneCall z ::
             .createZoneStructuredCall (secondaryPayload env z sz none)
               :: (finishCreate env z).2) := by
      simp [create_zone_after_lookup, hdz, hsz, hname, secondaryPayload]
    rw [heq]
    constructor
    · intro _
      constructor
      · intro e he
        simp only [List.mem_cons] at he
        rcases he with rfl | rfl | rfl | rfl | he
        · rfl
        · rfl
        · rfl
        · rfl
        · rw [hfc e he]; rfl
      · intro p hp
        simp only [List.mem_cons] at hp
        rcases hp with h1 | h1 | h1 | h1 | h1
        · exact absurd h1 (by simp)
        · exact absurd h1 (by simp)
        · exact absurd h1 (by simp)
        · injection h1 with h2
          subst h2
          intro m hm
          simp only [secondaryPayload, List.mem_map] at hm
          obtain ⟨a, _, rfl⟩ := hm
          rfl
        · exact absurd (hfc _ h1) (by simp)
    · intro p k hp hex
      exfalso
      simp only [List.mem_cons] at hp
      rcases hp with h1 | h1 | h1 | h1 | h1
      · exact absurd h1 (by simp)
      · exact absurd h1 (by simp)
      · exact absurd h1 (by simp)
      · injection h1 with h2
        subst h2
        obtain ⟨m, hm, hk⟩ := hex
        simp only [secondaryPayload, List.mem_map] at hm
        obtain ⟨a, _, rfl⟩ := hm
        exact absurd hk (by simp)
      · exact absurd (hfc _ h1) (by simp)
  · rcases hg : get_or_create_tsig_key env sz.tsig_key_name with ⟨res, tr⟩
    have htrk : ∀ e ∈ tr, isKeyEvent e = true := by
      have := gooc_trace_keyEvents env sz.tsig_key_name
      rw [hg] at this
      exact this
    have hhead : ∃ ts, tr = .listTsigKeysCall sz.tsig_key_name :: ts := by
      have := gooc_trace_head env sz.tsig_key_name
      rw [hg] at this
      exact this
    cases res with
    | error e0 =>
      have heq : create_zone_after_lookup env z
          = (.error (.tsigKeyFailed z e0),
             .dynZoneCall z :: .dynSecondaryZoneCall z :: tr) := by
        simp [create_zone_after_lookup, hdz, hsz, hname, hg]
      rw [heq]
      refine ⟨fun h => absurd h hname, ?_⟩
      intro p k hp _
      exfalso
      simp only [List.mem_cons] at hp
      rcases hp with h1 | h1 | h1 | h1
      · exact absurd h1 (by simp)
      · exact absurd h1 (by simp)
      · exact absurd h1 (by simp)
      · exact absurd (htrk _ h1) (by simp [isKeyEvent])
    | ok k0 =>
      have heq : create_zone_after_lookup env z
          = ((finishCreate env z).1,
             .dynZoneCall z :: .dynSecondaryZoneCall z ::
               (tr ++ .createZoneStructuredCall (secondaryPayload env z sz (some k0))
                 :: (finishCreate env z).2)) := by
        simp [create_zone_after_lookup, hdz, hsz, hname, hg, secondaryPayload]
      rw [heq]
      refine ⟨fun h => absurd h hname, ?_⟩
      intro p k hp hex
      have hpay : p = secondaryPayload env z sz (some k0) := by
        simp only [List.mem_cons, List.mem_append] at hp
        rcases hp with h1 | h1 | h1 | h1 | h1 | h1
        · exact absurd h1 (by simp)
        · exact absurd h1 (by simp)
        · exact absurd h1 (by simp)
        · exact absurd (htrk _ h1) (by simp [isKeyEvent])
        · injection h1
        · exact absurd (hfc _ h1) (by simp)
      subst hpay
      have hk0 : k0 = k := by
        obtain ⟨m, hm, hk⟩ := hex
        simp only [secondaryPayload, List.mem_map] at hm
        obtain ⟨a, _, rfl⟩ := hm
        simpa using hk
      subst hk0
      have hev : tsigActiveEvidence env k0 := by
        apply gooc_ok_evidence env sz.tsig_key_name k0
        rw [hg]
      refine ⟨hev,
        .listZonesCall z :: .dynZoneCall z :: .dynSecondaryZoneCall z :: tr,
        (finishCreate env z).2, ?_, ?_⟩
      · simp
      · obtain ⟨ts, hts⟩ := hhead
        rw [hts]
        simp

/-- Witness for C8: in the concrete secondary-zone run the issued payload
references key id ocid-key, the destination reported that key ACTIVE, and
the reporting lookup call precedes the zone-creation call in the trace. -/
theorem secondary_tsig_key_invariant_witness :
    tsigActiveEvidence envSecShared "ocid-key"
    ∧ ∃ pre post,
        (create_zone envSecShared "a.com").2
          = pre ++ Event.createZoneStructuredCall
              (secondaryPayload envSecShared "a.com" ⟨"k", ["192.0.2.1"]⟩
                (some "ocid-key")) :: post
          ∧ Event.listTsigKeysCall "k" ∈ pre :=
  (secondary_tsig_key_invariant envSecShared "a.com" ⟨"k", ["192.0.2.1"]⟩
      (by simp [skipsExisting, envSecShared, baseEnv]) rfl rfl).2
    (secondaryPayload envSecShared "a.com" ⟨"k", ["192.0.2.1"]⟩ (some "ocid-key"))
    "ocid-key" (by decide)
    ⟨⟨"192.0.2.1", some "ocid-key"⟩, by decide, rfl⟩

/-- Witness for C10: an unrecognized zone-type string takes the primary
path, so the zone-transfer call appears in the trace. -/
theorem zone_type_dispatch_witness :
    Event.transferCall "example.com"
      ∈ (create_zone { baseEnv with dynZone := .ok ⟨"Unknown-Type"⟩ } "example.com").2 :=
  ((zone_type_dispatch { baseEnv with dynZone := .ok ⟨"Unknown-Type"⟩ } "example.com"
      ⟨"Unknown-Type"⟩ (by simp [skipsExisting, baseEnv]) rfl).1 (by decide)).1
